import Mathlib

/-!
Verification of the fairpy min-sharing allocation core and the Allocation
display helpers, as a shallow embedding in Lean.

Matrices (valuations, consumption graphs, allocation matrices) are embedded
as lists of rows of rationals, mirroring the Python lists-of-lists that the
repository passes around.
-/

namespace Fairpy

/-- A matrix as Python passes it around: a list of rows of rationals. -/
abbrev Mat := List (List ℚ)

/-- Entry `(i, j)` of a matrix, with Python-style 0 default outside bounds. -/
def entry (m : Mat) (i j : ℕ) : ℚ := (m.getD i []).getD j 0

/-- Number of items in a valuation matrix: the length of the first row. -/
def numItems (v : Mat) : ℕ := (v.getD 0 []).length

/-- Sum of column `j` of an allocation matrix. -/
def colSum (a : Mat) (j : ℕ) : ℚ := (a.map (fun row => row.getD j 0)).sum

/-- Agent `i`'s realized utility: the valuation-weighted sum of the shares
that row `i` of the allocation matrix assigns to the agent. -/
def utility (v a : Mat) (i : ℕ) : ℚ :=
  (List.zipWith (fun x y => x * y) (v.getD i []) (a.getD i [])).sum

/-- The allocation matrix has the same shape as the valuation matrix. -/
def hasDims (v a : Mat) : Bool :=
  decide (a.length = v.length) && a.all (fun row => decide (row.length = numItems v))

/-- Every item's column of shares sums to exactly 1. -/
def colSumsOne (v a : Mat) : Bool :=
  (List.range (numItems v)).all (fun j => decide (colSum a j = 1))

/-- Every share is nonnegative. -/
def nonnegEntries (a : Mat) : Bool :=
  a.all (fun row => row.all (fun x => decide (0 ≤ x)))

/-- The allocation is 0 wherever the consumption graph forbids the edge. -/
def graphZeros (v g a : Mat) : Bool :=
  (List.range v.length).all (fun i =>
    (List.range (numItems v)).all (fun j =>
      !(decide (entry g i j = 0)) || decide (entry a i j = 0)))

/-- Every agent's realized utility reaches the agent's threshold. -/
def meetsThresholds (v : Mat) (th : List ℚ) (a : Mat) : Bool :=
  (List.range v.length).all (fun i => decide (th.getD i 0 ≤ utility v a i))

/-- Structural feasibility of an allocation matrix for a consumption graph:
correct shape, columns sum to 1, nonnegative entries, zero off the graph. -/
def structurallyFeasible (v g a : Mat) : Bool :=
  hasDims v a && colSumsOne v a && nonnegEntries a && graphZeros v g a

/-- Full feasibility for the threshold LP of the oracle: structural
feasibility plus per-agent threshold satisfaction. -/
def isFeasibleAlloc (v : Mat) (th : List ℚ) (g a : Mat) : Bool :=
  structurallyFeasible v g a && meetsThresholds v th a

/-- Modelled from the spec: `FairThresholdAllocationProblem.find_allocation_for_graph`
and the convex solver it wraps are not under src/ (only the
`FairMaxProductAllocationProblem` subclass is).  Per the spec, the call is a
single feasibility-oracle invocation: a returned matrix has nonnegative
entries, per-item column sums equal to 1, zero entries wherever the graph
forbids the edge, and per-agent utility at least the agent's threshold;
`None` is returned exactly when no such matrix exists. -/
def findAllocationContract (v : Mat) (th : List ℚ) (g : Mat) : Option Mat → Prop
  | some a => isFeasibleAlloc v th g a = true
  | none => ∀ a, isFeasibleAlloc v th g a = false

/-- The `FairMaxProductAllocationProblem` instance data stored by
`__init__`: the valuation matrix, the derived per-agent thresholds, and the
tolerance. -/
structure FairMaxProductAllocationProblem where
  valuations : Mat
  thresholds : List ℚ
  tolerance : ℚ

/-- Modelled from the spec where noted: `max_product_allocation` (the external
reference algorithm) is not under src/, so the reference allocation's utility
profile `mpaUtilities` enters as a parameter.  The rest embeds
`FairMaxProductAllocationProblem.__init__`: thresholds are the reference
utilities scaled elementwise by `1 - tolerance`, and the valuations and the
tolerance are stored on the instance. -/
def FairMaxProductAllocationProblem.make (valuations : Mat) (mpaUtilities : List ℚ)
    (tolerance : ℚ) : FairMaxProductAllocationProblem :=
  { valuations := valuations
    thresholds := mpaUtilities.map (fun u => u * (1 - tolerance))
    tolerance := tolerance }

/-- The `k`-th fractional decimal digit of a nonnegative rational. -/
def digitAt (x : ℚ) (k : ℕ) : ℕ := (⌊x * 10 ^ (k + 1)⌋ - 10 * ⌊x * 10 ^ k⌋).toNat

/-- The first `fuel` fractional decimal digits of a nonnegative rational
below 1, most significant first, trailing zeros trimmed. -/
def fracDigits (fuel : ℕ) (x : ℚ) : List ℕ :=
  (((List.range fuel).map (digitAt x)).reverse.dropWhile (fun d => d == 0)).reverse

/-- Decimal rendering of a rational with a terminating decimal expansion, the
way Python's `str` renders the corresponding float: integer part, a dot, and
the fractional digits (a single `0` when there are none). -/
def decimalRepr (q : ℚ) : String :=
  let n : ℤ := ⌊q⌋
  let ds := fracDigits 12 (q - n)
  let fracStr := if ds.isEmpty then "0" else String.join (ds.map (fun d => toString d))
  toString n ++ "." ++ fracStr

/-- Embeds `FairMaxProductAllocationProblem.fairness_adjective`. -/
def FairMaxProductAllocationProblem.fairness_adjective
    (p : FairMaxProductAllocationProblem) : String :=
  decimalRepr (1 - p.tolerance) ++ "-max-product"

/-- Round a rational to `d` decimal places. -/
def roundTo (d : ℕ) (q : ℚ) : ℚ := ((round (q * (10 : ℚ) ^ d) : ℤ) : ℚ) / (10 : ℚ) ^ d

/-- Round every entry of a matrix to `d` decimal places. -/
def roundMat (d : ℕ) (m : Mat) : Mat := m.map (fun row => row.map (roundTo d))

/-! Fixture data from the doctest of `FairMaxProductAllocationProblem` and
the spec's scenario section. -/

/-- The valuation matrix of the main doctest scenario. -/
def v349 : Mat := [[1, 2, 3, 4], [4, 5, 6, 5], [7, 8, 9, 6]]

/-- The feasible consumption graph of the main scenario. -/
def graphA : Mat := [[0, 0, 0, 1], [0, 1, 1, 1], [1, 1, 0, 0]]

/-- The allocation the main scenario reports, as exact rationals matching
its quoted two-decimal values. -/
def allocA : Mat :=
  [[0, 0, 0, 99/100], [0, 33/100, 1, 1/100], [1, 67/100, 0, 0]]

/-- The infeasible consumption graph of the second scenario. -/
def graphB : Mat := [[0, 0, 0, 1], [1, 1, 1, 1], [0, 0, 0, 1]]

/-- The valuation matrix of the numerically delicate scenario. -/
def vDelicate : Mat := [[465, 0, 535], [0, 0, 1000]]

/-- The consumption graph of the numerically delicate scenario. -/
def graphC : Mat := [[1, 1, 1], [0, 0, 1]]

/-- The allocation the numerically delicate scenario reports, as exact
rationals matching its quoted three-decimal values. -/
def allocC : Mat := [[1, 1, 7/100], [0, 0, 93/100]]

/-- Modelled from the spec: the result of `find_allocation_for_graph` on the
main scenario's graph, as the spec's scenario section and the doctest record
it (the deciding solver code is not under src/). -/
def find_allocation_for_graph_fixtureA : Option Mat := some allocA

/-- Modelled from the spec: the result of `find_allocation_for_graph` on the
infeasible scenario's graph, as the spec's scenario section and the doctest
record it (the deciding solver code is not under src/). -/
def find_allocation_for_graph_fixtureB : Option Mat := none

/-- Modelled from the spec: the result of `find_allocation_for_graph` on the
numerically delicate scenario's graph, as the spec's scenario section and the
doctest record it (the deciding solver code is not under src/). -/
def find_allocation_for_graph_fixtureC : Option Mat := some allocC

/-! Embedding of `src/allocations.py`: the `Allocation` container and the
`stringify_bundle` helper.  A Python bundle may be `None`, hence
`Option (List β)`; indexing a Python list out of range raises, hence the
`Option`-valued index operations. -/

/-- The fields stored by `Allocation.__init__` once validation passes. -/
structure Allocation (α β : Type) where
  agents : List α
  bundles : List (Option (List β))
  values : List ℚ
  num_of_agents : ℕ

/-- The message of the `ValueError` that `Allocation.__init__` raises (the
source passes a plain, not an f-, string, so the braces are literal). -/
def Allocation.lengthErrorMessage : String :=
  "Numbers of agents, bundles and values must be identical, but they are not: \x7blen(agents)\x7d, \x7blen(bundles)\x7d, \x7blen(values)\x7d"

/-- Embeds `Allocation.__init__`: on mismatched lengths a `ValueError` is
raised (the `Except.error` branch) and no instance is produced; otherwise the
three lists are stored unchanged and `num_of_agents` is the number of
agents. -/
def Allocation.make {α β : Type} (agents : List α) (bundles : List (Option (List β)))
    (values : List ℚ) : Except String (Allocation α β) :=
  if agents.length ≠ bundles.length ∨ agents.length ≠ values.length then
    Except.error Allocation.lengthErrorMessage
  else
    Except.ok { agents := agents, bundles := bundles, values := values,
                num_of_agents := agents.length }

/-- Embeds `Allocation.get_bundle`: Python list indexing, `none` when the
index is out of range (an `IndexError` in Python). -/
def Allocation.get_bundle {α β : Type} (a : Allocation α β) (i : ℕ) :
    Option (Option (List β)) :=
  a.bundles[i]?

/-- Embeds `Allocation.__getitem__`, which delegates to `get_bundle`. -/
def Allocation.getItem {α β : Type} (a : Allocation α β) (i : ℕ) :
    Option (Option (List β)) :=
  a.get_bundle i

/-- Embeds `stringify_bundle`: `None` renders as the string `None`; any other
bundle renders as its sorted elements, comma-separated inside braces. -/
def stringify_bundle (bundle : Option (List ℕ)) : String :=
  match bundle with
  | none => "None"
  | some l =>
    "\x7b" ++ String.intercalate "," ((l.insertionSort (fun x y => x ≤ y)).map
      (fun n => toString n)) ++ "\x7d"

/-! Helper lemmas extracting the components of a feasible allocation. -/

lemma feasible_structural {v : Mat} {th : List ℚ} {g a : Mat}
    (h : isFeasibleAlloc v th g a = true) : structurallyFeasible v g a = true := by
  rw [isFeasibleAlloc, Bool.and_eq_true] at h
  exact h.1

lemma feasible_meetsThresholds {v : Mat} {th : List ℚ} {g a : Mat}
    (h : isFeasibleAlloc v th g a = true) : meetsThresholds v th a = true := by
  rw [isFeasibleAlloc, Bool.and_eq_true] at h
  exact h.2

lemma structural_colSumsOne {v g a : Mat} (h : structurallyFeasible v g a = true) :
    colSumsOne v a = true := by
  rw [structurallyFeasible, Bool.and_eq_true, Bool.and_eq_true, Bool.and_eq_true] at h
  exact h.1.1.2

lemma structural_graphZeros {v g a : Mat} (h : structurallyFeasible v g a = true) :
    graphZeros v g a = true := by
  rw [structurallyFeasible, Bool.and_eq_true] at h
  exact h.2

lemma colSum_eq_one {v a : Mat} (h : colSumsOne v a = true) {j : ℕ}
    (hj : j < numItems v) : colSum a j = 1 := by
  rw [colSumsOne, List.all_eq_true] at h
  simpa using h j (List.mem_range.mpr hj)

lemma graphZeros_entry {v g a : Mat} (h : graphZeros v g a = true) {i j : ℕ}
    (hi : i < v.length) (hj : j < numItems v) (h0 : entry g i j = 0) :
    entry a i j = 0 := by
  rw [graphZeros, List.all_eq_true] at h
  have h2 := h i (List.mem_range.mpr hi)
  rw [List.all_eq_true] at h2
  have h3 := h2 j (List.mem_range.mpr hj)
  simp only [Bool.or_eq_true, Bool.not_eq_true', decide_eq_false_iff_not,
    decide_eq_true_eq] at h3
  rcases h3 with h3 | h3
  · exact absurd h0 h3
  · exact h3

lemma meetsThresholds_le {v : Mat} {th : List ℚ} {a : Mat}
    (h : meetsThresholds v th a = true) {i : ℕ} (hi : i < v.length) :
    th.getD i 0 ≤ utility v a i := by
  rw [meetsThresholds, List.all_eq_true] at h
  simpa using h i (List.mem_range.mpr hi)

/-! The claims. -/

/-- Claim C1: for the problem built from valuations
`[[1,2,3,4],[4,5,6,5],[7,8,9,6]]`, `find_allocation_for_graph` on the
consumption graph `[[0,0,0,1],[0,1,1,1],[1,1,0,0]]` returns a feasible
allocation matrix that, rounded to 2 decimals, equals
`[[0,0,0,0.99],[0,0.33,1,0.01],[1,0.67,0,0]]`. -/
theorem claim_C1 :
    find_allocation_for_graph_fixtureA = some allocA ∧
    structurallyFeasible v349 graphA allocA = true ∧
    roundMat 2 allocA =
      [[0, 0, 0, 99/100], [0, 33/100, 1, 1/100], [1, 67/100, 0, 0]] := by
  refine ⟨rfl, ?_, ?_⟩
  · norm_num [structurallyFeasible, hasDims, colSumsOne, nonnegEntries, graphZeros,
      numItems, colSum, entry, v349, graphA, allocA, List.range_succ]
  · norm_num [roundMat, roundTo, round_eq, allocA]

/-- Claim C5: for the problem built from valuations `[[465,0,535],[0,0,1000]]`
(which contain exact-zero values), `find_allocation_for_graph` on the
consumption graph `[[1,1,1],[0,0,1]]` returns a feasible allocation matrix
that, rounded to 3 decimals, equals `[[1,1,0.07],[0,0,0.93]]`. -/
theorem claim_C5 :
    find_allocation_for_graph_fixtureC = some allocC ∧
    structurallyFeasible vDelicate graphC allocC = true ∧
    roundMat 3 allocC = [[1, 1, 7/100], [0, 0, 93/100]] := by
  refine ⟨rfl, ?_, ?_⟩
  · norm_num [structurallyFeasible, hasDims, colSumsOne, nonnegEntries, graphZeros,
      numItems, colSum, entry, vDelicate, graphC, allocC, List.range_succ]
  · norm_num [roundMat, roundTo, round_eq, allocC]

/-- Claim C2: on the infeasible consumption graph
`[[0,0,0,1],[1,1,1,1],[0,0,0,1]]` the fixture problem's
`find_allocation_for_graph` returns `None`; and in general, under the
oracle's contract, infeasibility is surfaced as the `none` result, never as a
matrix violating the feasibility constraints. -/
theorem claim_C2 :
    find_allocation_for_graph_fixtureB = none ∧
    ∀ (v : Mat) (th : List ℚ) (g : Mat) (r : Option Mat),
      findAllocationContract v th g r →
      r = none ∨ ∃ a, r = some a ∧ isFeasibleAlloc v th g a = true := by
  refine ⟨rfl, ?_⟩
  intro v th g r h
  cases r with
  | none => exact Or.inl rfl
  | some a => exact Or.inr ⟨a, rfl, h⟩

/-- Witness for claim C2 at a concrete contract-satisfying result. -/
theorem claim_C2_witness :
    (some [[(1 : ℚ)]] : Option Mat) = none ∨
    ∃ a, (some [[(1 : ℚ)]] : Option Mat) = some a ∧
      isFeasibleAlloc [[1]] [0] [[1]] a = true :=
  claim_C2.2 [[1]] [0] [[1]] (some [[1]]) (by
    show isFeasibleAlloc [[1]] [0] [[1]] [[1]] = true
    simp [isFeasibleAlloc, structurallyFeasible, hasDims, colSumsOne, nonnegEntries,
      graphZeros, meetsThresholds, numItems, colSum, entry, utility, List.range_succ])

/-- Claim C3: every allocation matrix returned under the oracle's contract
has each item's column summing to 1 within tolerance `1e-6`. -/
theorem claim_C3 :
    ∀ (v : Mat) (th : List ℚ) (g a : Mat),
      findAllocationContract v th g (some a) →
      ∀ j, j < numItems v → |colSum a j - 1| ≤ 1/1000000 := by
  intro v th g a h j hj
  have hf : isFeasibleAlloc v th g a = true := h
  have h1 : colSum a j = 1 := colSum_eq_one (structural_colSumsOne (feasible_structural hf)) hj
  rw [h1]
  norm_num

/-- Witness for claim C3 at a concrete contract-satisfying result. -/
theorem claim_C3_witness : |colSum [[(1 : ℚ)]] 0 - 1| ≤ 1/1000000 :=
  claim_C3 [[1]] [0] [[1]] [[1]] (by
    show isFeasibleAlloc [[1]] [0] [[1]] [[1]] = true
    simp [isFeasibleAlloc, structurallyFeasible, hasDims, colSumsOne, nonnegEntries,
      graphZeros, meetsThresholds, numItems, colSum, entry, utility, List.range_succ])
    0 (by simp [numItems])

/-- Claim C4: every allocation matrix returned under the oracle's contract is
exactly 0 at every entry whose edge the generating consumption graph
forbids. -/
theorem claim_C4 :
    ∀ (v : Mat) (th : List ℚ) (g a : Mat),
      findAllocationContract v th g (some a) →
      ∀ i j, i < v.length → j < numItems v → entry g i j = 0 → entry a i j = 0 := by
  intro v th g a h i j hi hj h0
  have hf : isFeasibleAlloc v th g a = true := h
  exact graphZeros_entry (structural_graphZeros (feasible_structural hf)) hi hj h0

/-- Witness for claim C4 at a concrete contract-satisfying result. -/
theorem claim_C4_witness : entry [[(1 : ℚ), 0], [0, 1]] 0 1 = 0 :=
  claim_C4 [[1, 1], [1, 1]] [0, 0] [[1, 0], [0, 1]] [[1, 0], [0, 1]] (by
    show isFeasibleAlloc [[1, 1], [1, 1]] [0, 0] [[1, 0], [0, 1]] [[1, 0], [0, 1]] = true
    simp [isFeasibleAlloc, structurallyFeasible, hasDims, colSumsOne, nonnegEntries,
      graphZeros, meetsThresholds, numItems, colSum, entry, utility, List.range_succ])
    0 1 (by simp) (by simp [numItems]) (by simp [entry])

/-- Claim C6: `FairMaxProductAllocationProblem.__init__` stores the
valuations and the tolerance, and sets the per-agent thresholds to the
reference max-product utility profile scaled elementwise by
`1 - tolerance`, one threshold per reference utility. -/
theorem claim_C6 :
    ∀ (v : Mat) (u : List ℚ) (t : ℚ),
      (FairMaxProductAllocationProblem.make v u t).valuations = v ∧
      (FairMaxProductAllocationProblem.make v u t).tolerance = t ∧
      (FairMaxProductAllocationProblem.make v u t).thresholds =
        u.map (fun x => x * (1 - t)) ∧
      (FairMaxProductAllocationProblem.make v u t).thresholds.length = u.length := by
  intro v u t
  exact ⟨rfl, rfl, rfl, List.length_map _ _⟩

/-- Claim C7: `fairness_adjective` renders `1 - tolerance` followed by
`-max-product`; it depends only on the stored tolerance (identical for any
valuations and reference utilities), and at the default tolerance `0.01` it
is the string `0.99-max-product`. -/
theorem claim_C7 :
    (∀ (v v' : Mat) (u u' : List ℚ) (t : ℚ),
      (FairMaxProductAllocationProblem.make v u t).fairness_adjective =
        (FairMaxProductAllocationProblem.make v' u' t).fairness_adjective) ∧
    (∀ (v : Mat) (u : List ℚ),
      (FairMaxProductAllocationProblem.make v u (1/100)).fairness_adjective =
        "0.99-max-product") := by
  constructor
  · intro v v' u u' t
    rfl
  · intro v u
    show decimalRepr (1 - 1/100) ++ "-max-product" = "0.99-max-product"
    have h : decimalRepr (1 - 1/100) = "0.99" := by
      norm_num [decimalRepr, fracDigits, digitAt, List.range_succ]
      decide
    rw [h]
    rfl

/-- Claim C8: for every allocation matrix returned under the oracle's
contract for a problem built by `FairMaxProductAllocationProblem.__init__`,
each agent's realized utility is at least the agent's threshold minus a
small numerical epsilon. -/
theorem claim_C8 :
    ∀ (v : Mat) (u : List ℚ) (t : ℚ) (g a : Mat),
      findAllocationContract v (FairMaxProductAllocationProblem.make v u t).thresholds
        g (some a) →
      ∀ i, i < v.length →
        (FairMaxProductAllocationProblem.make v u t).thresholds.getD i 0 - 1/1000000 ≤
          utility v a i := by
  intro v u t g a h i hi
  have hf : isFeasibleAlloc v (FairMaxProductAllocationProblem.make v u t).thresholds
      g a = true := h
  have hle := meetsThresholds_le (feasible_meetsThresholds hf) hi
  linarith

/-- Witness for claim C8 at a concrete contract-satisfying result. -/
theorem claim_C8_witness :
    (FairMaxProductAllocationProblem.make [[(1 : ℚ)]] [1] 0).thresholds.getD 0 0
      - 1/1000000 ≤ utility [[(1 : ℚ)]] [[1]] 0 :=
  claim_C8 [[1]] [1] 0 [[1]] [[1]] (by
    show isFeasibleAlloc [[(1 : ℚ)]]
      (FairMaxProductAllocationProblem.make [[(1 : ℚ)]] [1] 0).thresholds [[1]] [[1]] = true
    simp [isFeasibleAlloc, structurallyFeasible, hasDims, colSumsOne, nonnegEntries,
      graphZeros, meetsThresholds, numItems, colSum, entry, utility, List.range_succ,
      FairMaxProductAllocationProblem.make])
    0 (by simp)

/-- Claim C9: `Allocation.__init__` raises a `ValueError` when the agents,
bundles and values lists do not all have the same length, and otherwise
stores the three lists unchanged with `num_of_agents` the number of agents;
for every in-range index, `get_bundle` and the indexing operator both return
exactly the bundle at that index. -/
theorem claim_C9 {α β : Type} (agents : List α) (bundles : List (Option (List β)))
    (values : List ℚ) :
    (agents.length ≠ bundles.length ∨ agents.length ≠ values.length →
      Allocation.make agents bundles values =
        Except.error Allocation.lengthErrorMessage) ∧
    (agents.length = bundles.length → agents.length = values.length →
      ∃ a : Allocation α β,
        Allocation.make agents bundles values = Except.ok a ∧
        a.agents = agents ∧ a.bundles = bundles ∧ a.values = values ∧
        a.num_of_agents = agents.length ∧
        ∀ i, i < bundles.length →
          a.get_bundle i = some (bundles.getD i none) ∧
          a.getItem i = a.get_bundle i) := by
  constructor
  · intro h
    rw [Allocation.make, if_pos h]
  · intro h1 h2
    refine ⟨⟨agents, bundles, values, agents.length⟩, ?_, rfl, rfl, rfl, rfl, ?_⟩
    · rw [Allocation.make, if_neg (not_or.mpr ⟨not_not_intro h1, not_not_intro h2⟩)]
    · intro i hi
      refine ⟨?_, rfl⟩
      show bundles[i]? = some (bundles.getD i none)
      rw [List.getElem?_eq_getElem hi, List.getD_eq_getElem bundles none hi]

/-- Witness for claim C9 at concrete mismatched and matched inputs. -/
theorem claim_C9_witness :
    (Allocation.make ([0] : List ℕ) ([some [7], none] : List (Option (List ℕ)))
        [(1 : ℚ)] = Except.error Allocation.lengthErrorMessage) ∧
    (∃ a : Allocation ℕ ℕ,
      Allocation.make [0, 1] [some [7], none] [(1 : ℚ), 2] = Except.ok a ∧
      a.agents = [0, 1] ∧ a.bundles = [some [7], none] ∧ a.values = [(1 : ℚ), 2] ∧
      a.num_of_agents = ([0, 1] : List ℕ).length ∧
      ∀ i, i < ([some [7], none] : List (Option (List ℕ))).length →
        a.get_bundle i = some (([some [7], none] : List (Option (List ℕ))).getD i none) ∧
        a.getItem i = a.get_bundle i) :=
  ⟨(claim_C9 [0] [some [7], none] [(1 : ℚ)]).1 (Or.inl (by decide)),
   (claim_C9 [0, 1] [some [7], none] [(1 : ℚ), 2]).2 rfl rfl⟩

/-- Claim C10, counterexample: the bundles `[1,1,2]` and `[1,2]` contain the
same set of elements, yet `stringify_bundle` renders them differently, so
the output does not depend only on the set of elements. -/
theorem claim_C10_counterexample :
    ([1, 1, 2] : List ℕ).toFinset = ([1, 2] : List ℕ).toFinset ∧
    stringify_bundle (some [1, 1, 2]) ≠ stringify_bundle (some [1, 2]) := by
  constructor
  · decide
  · decide

/-- Claim C10 as amended: `stringify_bundle` maps `None` to the string
`None`, and any two non-`None` bundles that are permutations of each other
(the same elements with multiplicity, in any order) render identically: the
output depends only on the multiset of elements, rendered sorted inside
braces. -/
theorem claim_C10 :
    stringify_bundle none = "None" ∧
    ∀ (l l' : List ℕ), l.Perm l' →
      stringify_bundle (some l) = stringify_bundle (some l') := by
  refine ⟨rfl, ?_⟩
  intro l l' h
  have hs : l.insertionSort (fun x y => x ≤ y) = l'.insertionSort (fun x y => x ≤ y) :=
    List.eq_of_perm_of_sorted
      (((List.perm_insertionSort _ l).trans h).trans (List.perm_insertionSort _ l').symm)
      (List.sorted_insertionSort _ l) (List.sorted_insertionSort _ l')
  simp only [stringify_bundle, hs]

/-- Witness for the amended claim C10 at a concrete permutation pair. -/
theorem claim_C10_witness :
    stringify_bundle (some [2, 1]) = stringify_bundle (some [1, 2]) :=
  claim_C10.2 [2, 1] [1, 2] (List.Perm.swap 1 2 [])

end Fairpy
